import Mathlib

/-!
Verification of the fluffy storage-backend module (`server/fluffy/backends.py`)
against its natural-language specification.

The Python module is shallowly embedded: each backend's `store` method becomes
a pure Lean function over an explicit filesystem / environment state.
Python exceptions become an explicit error type (`PyErr`), threaded through
`Except`.  Machine-level details that no claim depends on (the exact text of
OS error messages, `print` observability lines outside the debug backend)
are abstracted as environment parameters or omitted, as noted inline.

A key point of CPython semantics modelled faithfully below: the
`except IOException` clause in `FileBackend.store` names an identifier that is
undefined in the module (Python's builtin is `IOError`/`OSError`).  When an
exception propagates out of the `try` body, CPython evaluates the name
`IOException` to match the clause, and that evaluation raises
`NameError("name IOException is not defined")` while the original exception is
being handled.  Hence no exception in the try body is ever converted to a
`BackendException` there; every failure escapes as a `NameError`.
-/

set_option autoImplicit false

deriving instance DecidableEq for Except

namespace Fluffy

/-- Python exceptions that can propagate out of the embedded code. -/
inductive PyErr where
  /-- An `IOError`/`OSError` raised by a file operation; carries the message. -/
  | ioError (msg : String)
  /-- A `NameError` raised when an undefined identifier is evaluated. -/
  | nameError (nm : String)
  /-- A `KeyError` raised by a failing dict lookup; carries the key. -/
  | keyError (key : String)
  /-- `BackendException(internal_message, display_message)` from backends.py. -/
  | backendException (internal display : String)
deriving DecidableEq, Repr

/-- Local filesystem state: a map from path to file content (bytes). -/
def FS : Type := String → Option (List Nat)

/-- The empty filesystem. -/
def emptyFS : FS := fun _ => none

/-- Effect of `open(p, "wb+")` followed by writing `v`: `p` now holds `v`. -/
def setFile (fs : FS) (p : String) (v : List Nat) : FS :=
  fun q => if q = p then some v else fs q

/-- Effect of `os.remove(p)`: `p` no longer exists.  (In every call site in
the source, `p` was created earlier in the same `store` call, so the
`FileNotFoundError` case of `os.remove` is unreachable and not modelled.) -/
def removeFile (fs : FS) (p : String) : FS :=
  fun q => if q = p then none else fs q

/-- A backend's options dict.  The spec calls it an opaque mapping from
option-key to string/template value; claims never exercise a missing key, so
lookups are modelled as total. -/
def Opt : Type := String → String

/-- `stored_file.file`: a Django uploaded-file object.  `chunks` is the
sequence of byte chunks produced by `.chunks()`; `size` is the declared byte
length (`.size`), known up front and not derived from the content here, just
as the two are independent attributes on the Python object. -/
structure UploadedFile where
  chunks : List (List Nat)
  size : Nat
deriving DecidableEq, Repr

/-- `StoredFile`: the upload passed to every backend. -/
structure StoredFile where
  name : String
  file : UploadedFile
  info_html : String
deriving DecidableEq, Repr

/-- The bytes obtained by streaming `stored_file.file.chunks()` into a file. -/
def fileBytes (sf : StoredFile) : List Nat :=
  sf.file.chunks.flatten

/-- UTF-8 encoding of one scalar value, as `str.encode("utf-8")` produces
(Lean `Char` excludes surrogates, exactly the values Python can encode). -/
def utf8Char (c : Char) : List Nat :=
  let n := c.toNat
  if n < 128 then [n]
  else if n < 2048 then [192 + n / 64, 128 + n % 64]
  else if n < 65536 then [224 + n / 4096, 128 + (n / 64) % 64, 128 + n % 64]
  else [240 + n / 262144, 128 + (n / 4096) % 64, 128 + (n / 64) % 64, 128 + n % 64]

/-- `s.encode("utf-8")` as a byte list. -/
def utf8Bytes (s : String) : List Nat :=
  (s.data.map utf8Char).flatten

/-- Core of `template.format(name=value)`: replace every occurrence of the
replacement field `\x7bname\x7d` by `value`.  The templates used by
backends.py contain no other replacement fields and no brace escapes, so this
is exactly Python's behaviour on them. -/
def substName (v : List Char) : List Char → List Char
  | '\x7b' :: 'n' :: 'a' :: 'm' :: 'e' :: '\x7d' :: rest => v ++ substName v rest
  | c :: rest => c :: substName v rest
  | [] => []

/-- `template.format(name=value)`. -/
def pyFormatName (template value : String) : String :=
  ⟨substName value.data template.data⟩

/-- Same for the `\x7baccount\x7d` field used by the Kloudless URL template. -/
def substAccount (v : List Char) : List Char → List Char
  | '\x7b' :: 'a' :: 'c' :: 'c' :: 'o' :: 'u' :: 'n' :: 't' :: '\x7d' :: rest =>
      v ++ substAccount v rest
  | c :: rest => c :: substAccount v rest
  | [] => []

/-- `template.format(account=value)`. -/
def pyFormatAccount (template value : String) : String :=
  ⟨substAccount value.data template.data⟩

/-- The generic user-facing message used by every backend failure site. -/
def genericDisplay : String := "Sorry, we weren\x27t able to save your file."

/-- Environment for local-disk I/O: `writeOk p` tells whether
`open(p, "wb+")` plus writing the content succeeds (failure is modelled at
whole-write granularity: nothing is written on failure); `ioMsg p` is the OS
error message in that case. -/
structure DiskEnv where
  writeOk : String → Bool
  ioMsg : String → String

/-- `FileBackend.store(stored_file)`.  Returns the outcome together with the
filesystem state when `store` returns or raises.  The two `print` calls are
observability only and are not modelled.  Note on the except clause: the
source says `except IOException`, an undefined name, so when either write
raises an `IOError`, CPython raises `NameError` while matching the clause;
the `BackendException` branch of the handler body is dead code. -/
def FileBackend.store (opts : Opt) (sf : StoredFile) (env : DiskEnv) (fs : FS) :
    Except PyErr Unit × FS :=
  let path := pyFormatName (opts "file_path") sf.name
  let info_path := pyFormatName (opts "info_path") sf.name
  if env.writeOk path then
    let fs1 := setFile fs path (fileBytes sf)
    if env.writeOk info_path then
      (.ok (), setFile fs1 info_path (utf8Bytes sf.info_html))
    else
      (.error (.nameError "IOException"), fs1)
  else
    (.error (.nameError "IOException"), fs)

/-- Characters `shlex.quote` (= `pipes.quote` on Python 3) leaves unquoted:
ASCII alphanumerics, underscore, and the characters at-sign, percent, plus,
equals, colon, comma, dot, slash, hyphen. -/
def shellSafeChar (c : Char) : Bool :=
  c.isAlphanum || c = '_' || c = '@' || c = '%' || c = '+' || c = '=' ||
    c = ':' || c = ',' || c = '.' || c = '/' || c = '-'

/-- The replacement `shlex.quote` applies inside the quoted form: each
single-quote character becomes quote, double-quoted quote, quote; every other
character is kept. -/
def shellQuoteChar (c : Char) : List Char :=
  if c = '\x27' then ['\x27', '"', '\x27', '"', '\x27'] else [c]

/-- `pipes.quote(s)`: return `s` unchanged when every character is safe,
else wrap in single quotes, applying `shellQuoteChar` to each character. -/
def shellQuote (s : String) : String :=
  if s.isEmpty then "\x27\x27"
  else if s.data.all shellSafeChar then s
  else "\x27" ++ String.mk (s.data.map shellQuoteChar).flatten ++ "\x27"

/-- Environment for the S3 command-line backend: local temp-file writes
behave as in `DiskEnv`, and `exitCode cmd` is the status `os.system(cmd)`
returns (0 on success). -/
structure S3Env where
  writeOk : String → Bool
  ioMsg : String → String
  exitCode : String → Nat

/-- One iteration of the `for file in files` loop of
`S3CommandLineBackend.store`, for the artifact keyed `artKey`
(`"file"` or `"info"`) whose writer produces `bytes`.
Returns the outcome, the local filesystem afterwards, and the list of shell
commands executed.  Mirrors the source line by line: derive the artifact name
from the `<artKey>_name` template, derive the temp path by substituting that
name into `tmp_path`, write the temp file (an `IOError` here is uncaught and
propagates), build the `aws s3 cp` command with both paths shell-escaped,
run it, raise `BackendException` on a non-zero status without removing the
temp file, and remove the temp file on success. -/
def s3Artifact (opts : Opt) (sfName artKey : String) (bytes : List Nat)
    (env : S3Env) (fs : FS) : Except PyErr Unit × FS × List String :=
  let nm := pyFormatName (opts (artKey ++ "_name")) sfName
  let path := pyFormatName (opts "tmp_path") nm
  if env.writeOk path then
    let fs1 := setFile fs path bytes
    let s3 := pyFormatName (opts (artKey ++ "_s3path")) sfName
    let cmd := "aws s3 cp " ++ shellQuote path ++ " " ++ shellQuote s3
    let status := env.exitCode cmd
    if status = 0 then
      (.ok (), removeFile fs1 path, [cmd])
    else
      (.error (.backendException
        ("Received " ++ toString status ++ " status code for command " ++ cmd)
        genericDisplay), fs1, [cmd])
  else
    (.error (.ioError (env.ioMsg path)), fs, [])

/-- `S3CommandLineBackend.store(stored_file)`: process the two artifacts in
the fixed order file, then info page; a raised exception aborts the loop. -/
def S3CommandLineBackend.store (opts : Opt) (sf : StoredFile) (env : S3Env)
    (fs : FS) : Except PyErr Unit × FS × List String :=
  match s3Artifact opts sf.name "file" (fileBytes sf) env fs with
  | (.error e, fs1, c1) => (.error e, fs1, c1)
  | (.ok _, fs1, c1) =>
    match s3Artifact opts sf.name "info" (utf8Bytes sf.info_html) env fs1 with
    | (r, fs2, c2) => (r, fs2, c1 ++ c2)

/-- The local temporary path used for artifact `artKey`: the upload name is
first substituted into the `<artKey>_name` template, and the resulting
artifact name is what gets substituted into `tmp_path`. -/
def s3TmpPath (opts : Opt) (sfName artKey : String) : String :=
  pyFormatName (opts "tmp_path") (pyFormatName (opts (artKey ++ "_name")) sfName)

/-- The remote destination for artifact `artKey`: the raw upload name is
substituted directly into the `<artKey>_s3path` template. -/
def s3RemotePath (opts : Opt) (sfName artKey : String) : String :=
  pyFormatName (opts (artKey ++ "_s3path")) sfName

/-- The shell command executed for artifact `artKey`. -/
def s3Cmd (opts : Opt) (sfName artKey : String) : String :=
  "aws s3 cp " ++ shellQuote (s3TmpPath opts sfName artKey) ++ " " ++
    shellQuote (s3RemotePath opts sfName artKey)

/-- `KloudlessBackend.API_ENDPOINT`. -/
def API_ENDPOINT : String := "https://api.kloudless.com/v0"

/-- `KloudlessBackend.API_RESOURCE_FILE`. -/
def API_RESOURCE_FILE : String := "/accounts/\x7baccount\x7d/files"

/-- The `files=` part of a Kloudless request: either the uploaded-file
stream object (`stored_file.file`) or an in-memory named buffer such as
`("info.html", stored_file.info_html)`. -/
inductive KFilePart where
  | stream (f : UploadedFile)
  | named (filename : String) (content : String)
deriving DecidableEq, Repr

/-- One HTTP request as issued by `requests.post` inside
`KloudlessBackend.store`: the formatted URL, the authorization header, the
two metadata fields that are JSON-encoded into the `metadata` form field,
and the file part. -/
structure KReq where
  url : String
  authHeader : String
  metaName : String
  metaParentId : String
  filePart : KFilePart
deriving DecidableEq, Repr

/-- HTTP environment: the status code and response text the server returns
for a given request. -/
structure KEnv where
  status : KReq → Nat
  text : KReq → String

/-- The nested `upload(name, parent_id, file)` function of
`KloudlessBackend.store`: build and send the request; HTTP 201 is success
and anything else raises a `BackendException` naming only the status code
(the status and response body are printed, which is observability only and
not part of the returned state).  Returns the outcome and the request that
was sent. -/
def kUpload (opts : Opt) (env : KEnv) (nm pid : String) (fp : KFilePart) :
    Except PyErr Unit × KReq :=
  let req : KReq :=
    { url := pyFormatAccount (API_ENDPOINT ++ API_RESOURCE_FILE) (opts "account_id")
      authHeader := "AccountKey " ++ opts "account_key"
      metaName := nm
      metaParentId := pid
      filePart := fp }
  if env.status req = 201 then
    (.ok (), req)
  else
    (.error (.backendException
      ("Received " ++ toString (env.status req) ++ " status code")
      genericDisplay), req)

/-- `KloudlessBackend.store(stored_file)`: upload the file artifact, then the
info page, in that order; a raised exception aborts the loop.  Returns the
outcome and the list of HTTP requests actually sent. -/
def KloudlessBackend.store (opts : Opt) (sf : StoredFile) (env : KEnv) :
    Except PyErr Unit × List KReq :=
  match kUpload opts env (pyFormatName (opts "file_name") sf.name)
      (opts "file_parent_id") (.stream sf.file) with
  | (.error e, r1) => (.error e, [r1])
  | (.ok _, r1) =>
    match kUpload opts env (pyFormatName (opts "info_name") sf.name)
        (opts "info_parent_id") (.named "info.html" sf.info_html) with
    | (r, r2) => (r, [r1, r2])

/-- The request `KloudlessBackend.store` sends for the file artifact. -/
def kFileReq (opts : Opt) (sf : StoredFile) : KReq :=
  { url := pyFormatAccount (API_ENDPOINT ++ API_RESOURCE_FILE) (opts "account_id")
    authHeader := "AccountKey " ++ opts "account_key"
    metaName := pyFormatName (opts "file_name") sf.name
    metaParentId := opts "file_parent_id"
    filePart := .stream sf.file }

/-- The request `KloudlessBackend.store` sends for the info page. -/
def kInfoReq (opts : Opt) (sf : StoredFile) : KReq :=
  { url := pyFormatAccount (API_ENDPOINT ++ API_RESOURCE_FILE) (opts "account_id")
    authHeader := "AccountKey " ++ opts "account_key"
    metaName := pyFormatName (opts "info_name") sf.name
    metaParentId := opts "info_parent_id"
    filePart := .named "info.html" sf.info_html }

/-- Modelled from the spec: `get_human_size` lives in `fluffy.utils`, which
is not among the given source files; the spec describes human-readable size
formatting only as an external collaborator at its interface boundary (a
human-readable string for a byte count), so it is modelled as an arbitrary
total function of this type, passed in as a parameter. -/
def HumanSizeFn : Type := Nat → String

set_option linter.unusedVariables false in
/-- `DebugBackend.store(stored_file)`: print three diagnostic lines and
return.  The filesystem is threaded through untouched to express that no
persistence happens.  `opts` (the dict captured by `__init__`) is a
parameter precisely so that theorems can state it is never read. -/
def DebugBackend.store (humanSize : HumanSizeFn) (opts : Opt)
    (sf : StoredFile) (fs : FS) : Except PyErr Unit × FS × List String :=
  (.ok (), fs,
    ["Storing file:",
     "\tName: " ++ sf.name,
     "\tSize: " ++ humanSize sf.file.size])

/-- A constructed backend instance: which class was instantiated, holding
the options dict passed to `__init__` (which only stores them). -/
inductive BackendInst where
  | fileB (options : Opt)
  | s3cliB (options : Opt)
  | kloudlessB (options : Opt)
  | debugB (options : Opt)

/-- The module-level `backends` dict, as an association list in source
order. -/
def backendsDict : List (String × (Opt → BackendInst)) :=
  [("file", .fileB), ("s3cli", .s3cliB), ("kloudless", .kloudlessB),
   ("debug", .debugB)]

/-- `settings.STORAGE_BACKEND`: the configured backend name and options.
Configuration loading is an external collaborator; the value is passed in. -/
structure StorageConf where
  name : String
  options : Opt

/-- `get_backend()`: look the configured name up in the `backends` dict
(`backends[name]` raises `KeyError` when absent — no fallback) and call the
resulting class with the configured options. -/
def get_backend (conf : StorageConf) : Except PyErr BackendInst :=
  match backendsDict.lookup conf.name with
  | some ctor => .ok (ctor conf.options)
  | none => .error (.keyError conf.name)

/-! Concrete inputs used by counterexamples and witnesses. -/

/-- Options from the spec's end-to-end scenario for the local-disk backend. -/
def demoOpts : Opt := fun k =>
  if k = "file_path" then "/data/files/\x7bname\x7d"
  else if k = "info_path" then "/data/info/\x7bname\x7d.html" else ""

/-- A small concrete upload. -/
def demoSf : StoredFile := ⟨"abc123", ⟨[[104, 105]], 2⟩, "<p>"⟩

/-- Disk environment in which every write succeeds. -/
def okEnvD : DiskEnv := ⟨fun _ => true, fun _ => ""⟩

/-- Disk environment in which every write fails. -/
def failEnvD : DiskEnv := ⟨fun _ => false, fun _ => "Permission denied"⟩

/-- Disk environment in which only the demo file path is writable. -/
def mixedEnvD : DiskEnv := ⟨fun p => p = "/data/files/abc123", fun _ => "ENOSPC"⟩

/-- Options whose file and info templates resolve to the same path. -/
def collideOpts : Opt := fun k =>
  if k = "file_path" then "p" else if k = "info_path" then "p" else ""

/-! Claim theorems. -/

/-- Claim C1.  The claim says every I/O failure during `store` is converted
to a `BackendError`.  The code cannot do this: its handler clause names
`IOException`, which is undefined in the module, so CPython raises a
`NameError` while matching the clause and the I/O failure escapes as that
`NameError`, never as a `BackendException`.  This theorem evaluates the
embedded `store` at a failing input: the outcome is the `NameError`, whose
constructor differs from `backendException`, and nothing was written. -/
theorem fileBackend_io_failure_escapes_as_name_error :
    (FileBackend.store demoOpts demoSf failEnvD emptyFS).1 =
      .error (.nameError "IOException") ∧
    (FileBackend.store demoOpts demoSf failEnvD emptyFS).2 "/data/files/abc123" =
      none := by
  decide

/-- Claim C2, counterexample.  When the two option templates resolve to the
same path, a successful store leaves that path holding the info page's
UTF-8 bytes, not the file's stream bytes, so the claim as stated fails. -/
theorem fileBackend_colliding_paths_counterexample :
    (FileBackend.store collideOpts demoSf okEnvD emptyFS).1 = .ok () ∧
    (FileBackend.store collideOpts demoSf okEnvD emptyFS).2
        (pyFormatName (collideOpts "file_path") demoSf.name) ≠
      some (fileBytes demoSf) := by
  decide

/-- Claim C2, amended: provided the two resolved destination paths are
distinct, a successful store leaves the file path holding exactly the
concatenated stream chunks, the info path holding exactly the UTF-8 bytes of
`info_html`, and every other path untouched. -/
theorem fileBackend_success_writes_both_paths (opts : Opt) (sf : StoredFile)
    (env : DiskEnv) (fs : FS)
    (h1 : env.writeOk (pyFormatName (opts "file_path") sf.name) = true)
    (h2 : env.writeOk (pyFormatName (opts "info_path") sf.name) = true)
    (hne : pyFormatName (opts "file_path") sf.name ≠
      pyFormatName (opts "info_path") sf.name) :
    (FileBackend.store opts sf env fs).1 = .ok () ∧
    (FileBackend.store opts sf env fs).2
        (pyFormatName (opts "file_path") sf.name) = some (fileBytes sf) ∧
    (FileBackend.store opts sf env fs).2
        (pyFormatName (opts "info_path") sf.name) =
      some (utf8Bytes sf.info_html) ∧
    ∀ q, q ≠ pyFormatName (opts "file_path") sf.name →
      q ≠ pyFormatName (opts "info_path") sf.name →
      (FileBackend.store opts sf env fs).2 q = fs q := by
  refine ⟨?_, ?_, ?_, ?_⟩
  · simp [FileBackend.store, h1, h2]
  · simp [FileBackend.store, h1, h2, setFile, hne]
  · simp [FileBackend.store, h1, h2, setFile]
  · intro q hq1 hq2
    simp [FileBackend.store, h1, h2, setFile, hq1, hq2]

/-- Claim C2, witness: the amended theorem applied to the spec's end-to-end
scenario inputs. -/
theorem fileBackend_success_writes_both_paths_witness :
    okEnvD.writeOk (pyFormatName (demoOpts "file_path") demoSf.name) = true ∧
    okEnvD.writeOk (pyFormatName (demoOpts "info_path") demoSf.name) = true ∧
    pyFormatName (demoOpts "file_path") demoSf.name ≠
      pyFormatName (demoOpts "info_path") demoSf.name ∧
    (FileBackend.store demoOpts demoSf okEnvD emptyFS).2
        (pyFormatName (demoOpts "file_path") demoSf.name) =
      some (fileBytes demoSf) :=
  ⟨rfl, rfl, by decide,
    (fileBackend_success_writes_both_paths demoOpts demoSf okEnvD emptyFS
      rfl rfl (by decide)).2.1⟩

/-- Claim C3: the file is written strictly before the info page.  If the
file write fails, `store` raises with the filesystem unchanged (so the info
page was never written); if the info-page write fails after a successful
file write, `store` still raises but the resulting filesystem is exactly the
original plus the completed file write — the file is not rolled back. -/
theorem fileBackend_file_before_info (opts : Opt) (sf : StoredFile)
    (env : DiskEnv) (fs : FS) :
    (env.writeOk (pyFormatName (opts "file_path") sf.name) = false →
      FileBackend.store opts sf env fs =
        (.error (.nameError "IOException"), fs)) ∧
    (env.writeOk (pyFormatName (opts "file_path") sf.name) = true →
      env.writeOk (pyFormatName (opts "info_path") sf.name) = false →
      FileBackend.store opts sf env fs =
        (.error (.nameError "IOException"),
          setFile fs (pyFormatName (opts "file_path") sf.name) (fileBytes sf))) := by
  constructor
  · intro h1
    simp [FileBackend.store, h1]
  · intro h1 h2
    simp [FileBackend.store, h1, h2]

/-- Claim C3, witness: both branches exercised on concrete environments
(all writes failing; only the file path writable). -/
theorem fileBackend_file_before_info_witness :
    (failEnvD.writeOk (pyFormatName (demoOpts "file_path") demoSf.name) = false ∧
      FileBackend.store demoOpts demoSf failEnvD emptyFS =
        (.error (.nameError "IOException"), emptyFS)) ∧
    (mixedEnvD.writeOk (pyFormatName (demoOpts "file_path") demoSf.name) = true ∧
      mixedEnvD.writeOk (pyFormatName (demoOpts "info_path") demoSf.name) = false ∧
      FileBackend.store demoOpts demoSf mixedEnvD emptyFS =
        (.error (.nameError "IOException"),
          setFile emptyFS (pyFormatName (demoOpts "file_path") demoSf.name)
            (fileBytes demoSf))) :=
  ⟨⟨rfl, (fileBackend_file_before_info demoOpts demoSf failEnvD emptyFS).1 rfl⟩,
   ⟨by decide, by decide,
    (fileBackend_file_before_info demoOpts demoSf mixedEnvD emptyFS).2
      (by decide) (by decide)⟩⟩

/-- Options for the S3 command-line backend used by witnesses. -/
def s3OptsW : Opt := fun k =>
  if k = "file_name" then "\x7bname\x7d"
  else if k = "info_name" then "\x7bname\x7d.html"
  else if k = "tmp_path" then "/tmp/\x7bname\x7d"
  else if k = "file_s3path" then "s3://b/\x7bname\x7d"
  else if k = "info_s3path" then "s3://b/\x7bname\x7d.html" else ""

/-- S3 environment: every temp write succeeds and every command exits 0. -/
def s3OkEnv : S3Env := ⟨fun _ => true, fun _ => "", fun _ => 0⟩

/-- S3 environment: temp writes succeed, every command exits 256. -/
def s3CmdFailEnv : S3Env := ⟨fun _ => true, fun _ => "", fun _ => 256⟩

/-- S3 environment: temp writes succeed, only the demo file-artifact command
exits 0. -/
def s3InfoFailEnv : S3Env :=
  ⟨fun _ => true, fun _ => "",
   fun c => if c = "aws s3 cp /tmp/abc123 s3://b/abc123" then 0 else 256⟩

/-- Unfolding lemma for the file artifact's temp path. -/
theorem s3TmpPath_file (opts : Opt) (n : String) :
    s3TmpPath opts n "file" =
      pyFormatName (opts "tmp_path") (pyFormatName (opts "file_name") n) := rfl

/-- Unfolding lemma for the info artifact's temp path. -/
theorem s3TmpPath_info (opts : Opt) (n : String) :
    s3TmpPath opts n "info" =
      pyFormatName (opts "tmp_path") (pyFormatName (opts "info_name") n) := rfl

/-- Unfolding lemma for the file artifact's remote path. -/
theorem s3RemotePath_file (opts : Opt) (n : String) :
    s3RemotePath opts n "file" = pyFormatName (opts "file_s3path") n := rfl

/-- Unfolding lemma for the info artifact's remote path. -/
theorem s3RemotePath_info (opts : Opt) (n : String) :
    s3RemotePath opts n "info" = pyFormatName (opts "info_s3path") n := rfl

/-- Unfolding lemma for the file artifact's command. -/
theorem s3Cmd_file (opts : Opt) (n : String) :
    s3Cmd opts n "file" =
      "aws s3 cp " ++
        shellQuote (pyFormatName (opts "tmp_path")
          (pyFormatName (opts "file_name") n)) ++ " " ++
        shellQuote (pyFormatName (opts "file_s3path") n) := rfl

/-- Unfolding lemma for the info artifact's command. -/
theorem s3Cmd_info (opts : Opt) (n : String) :
    s3Cmd opts n "info" =
      "aws s3 cp " ++
        shellQuote (pyFormatName (opts "tmp_path")
          (pyFormatName (opts "info_name") n)) ++ " " ++
        shellQuote (pyFormatName (opts "info_s3path") n) := rfl

/-- Claim C4: temp-file lifecycle of the S3 command-line backend.  On a fully
successful run both temp files are gone.  If the file artifact's command
exits non-zero, `store` raises a `BackendException` at once: the temp file
is left in place (the final filesystem is exactly the original plus that
temp write) and no temp write or upload for the info page ever happens
(exactly one command was executed).  If the info artifact's command exits
non-zero after a successful file transfer, its temp file likewise remains. -/
theorem s3Backend_temp_file_lifecycle (opts : Opt) (sf : StoredFile)
    (env : S3Env) (fs : FS) :
    (env.writeOk (s3TmpPath opts sf.name "file") = true →
      env.exitCode (s3Cmd opts sf.name "file") = 0 →
      env.writeOk (s3TmpPath opts sf.name "info") = true →
      env.exitCode (s3Cmd opts sf.name "info") = 0 →
      (S3CommandLineBackend.store opts sf env fs).1 = .ok () ∧
      (S3CommandLineBackend.store opts sf env fs).2.1
        (s3TmpPath opts sf.name "file") = none ∧
      (S3CommandLineBackend.store opts sf env fs).2.1
        (s3TmpPath opts sf.name "info") = none) ∧
    (env.writeOk (s3TmpPath opts sf.name "file") = true →
      env.exitCode (s3Cmd opts sf.name "file") ≠ 0 →
      (S3CommandLineBackend.store opts sf env fs).1 = .error (.backendException
        ("Received " ++ toString (env.exitCode (s3Cmd opts sf.name "file")) ++
          " status code for command " ++ s3Cmd opts sf.name "file")
        genericDisplay) ∧
      (S3CommandLineBackend.store opts sf env fs).2.1 =
        setFile fs (s3TmpPath opts sf.name "file") (fileBytes sf) ∧
      (S3CommandLineBackend.store opts sf env fs).2.2 =
        [s3Cmd opts sf.name "file"]) ∧
    (env.writeOk (s3TmpPath opts sf.name "file") = true →
      env.exitCode (s3Cmd opts sf.name "file") = 0 →
      env.writeOk (s3TmpPath opts sf.name "info") = true →
      env.exitCode (s3Cmd opts sf.name "info") ≠ 0 →
      (S3CommandLineBackend.store opts sf env fs).1 = .error (.backendException
        ("Received " ++ toString (env.exitCode (s3Cmd opts sf.name "info")) ++
          " status code for command " ++ s3Cmd opts sf.name "info")
        genericDisplay) ∧
      (S3CommandLineBackend.store opts sf env fs).2.1
        (s3TmpPath opts sf.name "info") = some (utf8Bytes sf.info_html)) := by
  refine ⟨?_, ?_, ?_⟩
  · intro h1 h2 h3 h4
    simp only [s3TmpPath_file, s3TmpPath_info, s3Cmd_file, s3Cmd_info]
      at h1 h2 h3 h4
    refine ⟨?_, ?_, ?_⟩
    · simp [S3CommandLineBackend.store, s3Artifact, h1, h2, h3, h4]
    · by_cases hq : pyFormatName (opts "tmp_path")
          (pyFormatName (opts "file_name") sf.name) =
            pyFormatName (opts "tmp_path")
              (pyFormatName (opts "info_name") sf.name)
      · simp only [hq] at h1 h2
        simp [S3CommandLineBackend.store, s3Artifact, s3TmpPath_file,
          h1, h2, h3, h4, setFile, removeFile, hq]
      · simp [S3CommandLineBackend.store, s3Artifact, s3TmpPath_file,
          h1, h2, h3, h4, setFile, removeFile, hq]
    · simp [S3CommandLineBackend.store, s3Artifact, s3TmpPath_info,
        h1, h2, h3, h4, setFile, removeFile]
  · intro h1 h2
    simp only [s3TmpPath_file, s3Cmd_file] at h1 h2
    simp [S3CommandLineBackend.store, s3Artifact, s3TmpPath_file, s3Cmd_file,
      h1, h2]
  · intro h1 h2 h3 h4
    simp only [s3TmpPath_file, s3TmpPath_info, s3Cmd_file, s3Cmd_info]
      at h1 h2 h3 h4
    simp [S3CommandLineBackend.store, s3Artifact, s3TmpPath_info, s3Cmd_info,
      h1, h2, h3, h4, setFile, removeFile]

/-- Claim C4, witness: the three branches at concrete environments (all
commands succeed; the first command fails; only the second command fails). -/
theorem s3Backend_temp_file_lifecycle_witness :
    ((S3CommandLineBackend.store s3OptsW demoSf s3OkEnv emptyFS).1 = .ok () ∧
      (S3CommandLineBackend.store s3OptsW demoSf s3OkEnv emptyFS).2.1
        (s3TmpPath s3OptsW demoSf.name "file") = none ∧
      (S3CommandLineBackend.store s3OptsW demoSf s3OkEnv emptyFS).2.1
        (s3TmpPath s3OptsW demoSf.name "info") = none) ∧
    ((S3CommandLineBackend.store s3OptsW demoSf s3CmdFailEnv emptyFS).2.2 =
      [s3Cmd s3OptsW demoSf.name "file"]) ∧
    ((S3CommandLineBackend.store s3OptsW demoSf s3InfoFailEnv emptyFS).2.1
      (s3TmpPath s3OptsW demoSf.name "info") = some (utf8Bytes demoSf.info_html)) :=
  ⟨(s3Backend_temp_file_lifecycle s3OptsW demoSf s3OkEnv emptyFS).1
      rfl rfl rfl rfl,
   ((s3Backend_temp_file_lifecycle s3OptsW demoSf s3CmdFailEnv emptyFS).2.1
      rfl (by decide)).2.2,
   ((s3Backend_temp_file_lifecycle s3OptsW demoSf s3InfoFailEnv emptyFS).2.2
      rfl (by decide) rfl (by decide)).2⟩

/-- Claim C5: for an artifact whose temp write succeeds, exactly one shell
command is executed, of the shape `aws s3 cp <quoted temp path> <quoted s3
path>`; the artifact succeeds exactly when that command's exit status is 0;
and a non-zero status raises a `BackendException` whose internal message is
exactly the text embedding the status and the full command line. -/
theorem s3Backend_command_shape_and_status (opts : Opt) (n k : String)
    (bytes : List Nat) (env : S3Env) (fs : FS)
    (hw : env.writeOk (s3TmpPath opts n k) = true) :
    (s3Artifact opts n k bytes env fs).2.2 = [s3Cmd opts n k] ∧
    s3Cmd opts n k =
      "aws s3 cp " ++ shellQuote (s3TmpPath opts n k) ++ " " ++
        shellQuote (s3RemotePath opts n k) ∧
    ((s3Artifact opts n k bytes env fs).1 = .ok () ↔
      env.exitCode (s3Cmd opts n k) = 0) ∧
    (env.exitCode (s3Cmd opts n k) ≠ 0 →
      (s3Artifact opts n k bytes env fs).1 = .error (.backendException
        ("Received " ++ toString (env.exitCode (s3Cmd opts n k)) ++
          " status code for command " ++ s3Cmd opts n k) genericDisplay)) := by
  simp only [s3TmpPath, s3Cmd, s3RemotePath] at hw ⊢
  by_cases h0 : env.exitCode ("aws s3 cp " ++
      shellQuote (pyFormatName (opts "tmp_path")
        (pyFormatName (opts (k ++ "_name")) n)) ++ " " ++
      shellQuote (pyFormatName (opts (k ++ "_s3path")) n)) = 0
  · simp [s3Artifact, hw, h0]
  · simp [s3Artifact, hw, h0]

/-- Claim C5, witness: the file artifact at a concrete failing environment
(every command exits 256). -/
theorem s3Backend_command_shape_and_status_witness :
    s3CmdFailEnv.writeOk (s3TmpPath s3OptsW "abc123" "file") = true ∧
    (s3Artifact s3OptsW "abc123" "file" (fileBytes demoSf) s3CmdFailEnv
      emptyFS).2.2 = [s3Cmd s3OptsW "abc123" "file"] ∧
    (s3Artifact s3OptsW "abc123" "file" (fileBytes demoSf) s3CmdFailEnv
      emptyFS).1 = .error (.backendException
        ("Received " ++
          toString (s3CmdFailEnv.exitCode (s3Cmd s3OptsW "abc123" "file")) ++
          " status code for command " ++ s3Cmd s3OptsW "abc123" "file")
        genericDisplay) :=
  ⟨rfl,
   (s3Backend_command_shape_and_status s3OptsW "abc123" "file"
     (fileBytes demoSf) s3CmdFailEnv emptyFS rfl).1,
   (s3Backend_command_shape_and_status s3OptsW "abc123" "file"
     (fileBytes demoSf) s3CmdFailEnv emptyFS rfl).2.2.2 (by decide)⟩

/-- Claim C9: in the executed commands, the local temp path comes from
substituting the artifact-derived name (the `file_name` or `info_name`
template applied to the upload's name) into `tmp_path`, whereas the remote
destination comes from substituting the raw upload name directly into the
`file_s3path` or `info_s3path` template. -/
theorem s3Backend_name_templating (opts : Opt) (sf : StoredFile)
    (env : S3Env) (fs : FS)
    (h1 : env.writeOk (s3TmpPath opts sf.name "file") = true)
    (h2 : env.exitCode (s3Cmd opts sf.name "file") = 0)
    (h3 : env.writeOk (s3TmpPath opts sf.name "info") = true) :
    (S3CommandLineBackend.store opts sf env fs).2.2 =
      ["aws s3 cp " ++ shellQuote (pyFormatName (opts "tmp_path")
          (pyFormatName (opts "file_name") sf.name)) ++ " " ++
        shellQuote (pyFormatName (opts "file_s3path") sf.name),
       "aws s3 cp " ++ shellQuote (pyFormatName (opts "tmp_path")
          (pyFormatName (opts "info_name") sf.name)) ++ " " ++
        shellQuote (pyFormatName (opts "info_s3path") sf.name)] := by
  simp only [s3TmpPath_file, s3TmpPath_info, s3Cmd_file] at h1 h2 h3
  by_cases h4 : env.exitCode ("aws s3 cp " ++
      shellQuote (pyFormatName (opts "tmp_path")
        (pyFormatName (opts "info_name") sf.name)) ++ " " ++
      shellQuote (pyFormatName (opts "info_s3path") sf.name)) = 0
  · simp [S3CommandLineBackend.store, s3Artifact, h1, h2, h3, h4]
  · simp [S3CommandLineBackend.store, s3Artifact, h1, h2, h3, h4]

/-- Claim C9, witness: concrete run in which the derived names differ from
the raw name (`abc123` versus `abc123.html` for the info artifact), showing
up only in the temp argument, never in the remote argument. -/
theorem s3Backend_name_templating_witness :
    s3OkEnv.writeOk (s3TmpPath s3OptsW "abc123" "file") = true ∧
    s3OkEnv.exitCode (s3Cmd s3OptsW "abc123" "file") = 0 ∧
    s3OkEnv.writeOk (s3TmpPath s3OptsW "abc123" "info") = true ∧
    (S3CommandLineBackend.store s3OptsW demoSf s3OkEnv emptyFS).2.2 =
      ["aws s3 cp " ++ shellQuote (pyFormatName (s3OptsW "tmp_path")
          (pyFormatName (s3OptsW "file_name") demoSf.name)) ++ " " ++
        shellQuote (pyFormatName (s3OptsW "file_s3path") demoSf.name),
       "aws s3 cp " ++ shellQuote (pyFormatName (s3OptsW "tmp_path")
          (pyFormatName (s3OptsW "info_name") demoSf.name)) ++ " " ++
        shellQuote (pyFormatName (s3OptsW "info_s3path") demoSf.name)] :=
  ⟨rfl, rfl, rfl,
   s3Backend_name_templating s3OptsW demoSf s3OkEnv emptyFS rfl rfl rfl⟩

/-- Options for the Kloudless backend used by witnesses. -/
def kOptsW : Opt := fun k =>
  if k = "account_id" then "acct42"
  else if k = "account_key" then "sekrit"
  else if k = "file_name" then "\x7bname\x7d"
  else if k = "info_name" then "\x7bname\x7d.html"
  else if k = "file_parent_id" then "root"
  else if k = "info_parent_id" then "infodir" else ""

/-- HTTP environment answering 201 to everything. -/
def kOkEnv : KEnv := ⟨fun _ => 201, fun _ => ""⟩

/-- HTTP environment answering 503 to everything, with a response body. -/
def kFailEnv : KEnv := ⟨fun _ => 503, fun _ => "<h1>Service Unavailable</h1>"⟩

/-- Same status behaviour as `kFailEnv` but a different response body. -/
def kFailEnvAltBody : KEnv := ⟨fun _ => 503, fun _ => "another body"⟩

/-- HTTP environment answering 201 to the demo file request, 503 to
everything else (in particular to the demo info request). -/
def kMixedEnv : KEnv :=
  ⟨fun r => if r = kFileReq kOptsW demoSf then 201 else 503, fun _ => "oops"⟩

/-- Claim C6: a Kloudless upload succeeds exactly on HTTP 201.  When both
artifacts get 201, `store` succeeds having sent exactly the file request
then the info request.  A non-201 answer to the file upload makes `store`
raise a `BackendException` whose internal message is exactly
`Received <status> status code` — built from the status alone — with only
the file request ever sent; a non-201 answer to the info upload after a 201
for the file likewise makes `store` raise the `BackendException` naming the
info status (both requests having been sent); and the whole outcome is
unchanged under any modification of the response bodies (`store` reads only
the status). -/
theorem kloudless_success_iff_201 (opts : Opt) (sf : StoredFile) (env : KEnv) :
    (env.status (kFileReq opts sf) = 201 →
      env.status (kInfoReq opts sf) = 201 →
      KloudlessBackend.store opts sf env =
        (.ok (), [kFileReq opts sf, kInfoReq opts sf])) ∧
    (env.status (kFileReq opts sf) ≠ 201 →
      KloudlessBackend.store opts sf env =
        (.error (.backendException
          ("Received " ++ toString (env.status (kFileReq opts sf)) ++
            " status code") genericDisplay), [kFileReq opts sf])) ∧
    (env.status (kFileReq opts sf) = 201 →
      env.status (kInfoReq opts sf) ≠ 201 →
      KloudlessBackend.store opts sf env =
        (.error (.backendException
          ("Received " ++ toString (env.status (kInfoReq opts sf)) ++
            " status code") genericDisplay),
          [kFileReq opts sf, kInfoReq opts sf])) ∧
    (∀ env2 : KEnv, env2.status = env.status →
      KloudlessBackend.store opts sf env2 = KloudlessBackend.store opts sf env) := by
  refine ⟨?_, ?_, ?_, ?_⟩
  · intro h1 h2
    simp only [kFileReq, kInfoReq] at h1 h2
    simp [KloudlessBackend.store, kUpload, kFileReq, kInfoReq, h1, h2]
  · intro h1
    simp only [kFileReq] at h1
    simp [KloudlessBackend.store, kUpload, kFileReq, h1]
  · intro h1 h2
    simp only [kFileReq, kInfoReq] at h1 h2
    simp [KloudlessBackend.store, kUpload, kFileReq, kInfoReq, h1, h2]
  · intro env2 h
    obtain ⟨st2, tx2⟩ := env2
    obtain ⟨st1, tx1⟩ := env
    simp only at h
    subst h
    rfl

/-- Claim C6, witness: success on all-201; on all-503 the file request is
the only one sent and the error names the status; on 201-for-file but
503-for-info both requests are sent and the error names the info status;
changing only response bodies changes nothing. -/
theorem kloudless_success_iff_201_witness :
    kOkEnv.status (kFileReq kOptsW demoSf) = 201 ∧
    KloudlessBackend.store kOptsW demoSf kOkEnv =
      (.ok (), [kFileReq kOptsW demoSf, kInfoReq kOptsW demoSf]) ∧
    kFailEnv.status (kFileReq kOptsW demoSf) ≠ 201 ∧
    KloudlessBackend.store kOptsW demoSf kFailEnv =
      (.error (.backendException
        ("Received " ++ toString (kFailEnv.status (kFileReq kOptsW demoSf)) ++
          " status code") genericDisplay), [kFileReq kOptsW demoSf]) ∧
    kMixedEnv.status (kFileReq kOptsW demoSf) = 201 ∧
    kMixedEnv.status (kInfoReq kOptsW demoSf) ≠ 201 ∧
    KloudlessBackend.store kOptsW demoSf kMixedEnv =
      (.error (.backendException
        ("Received " ++ toString (kMixedEnv.status (kInfoReq kOptsW demoSf)) ++
          " status code") genericDisplay),
        [kFileReq kOptsW demoSf, kInfoReq kOptsW demoSf]) ∧
    KloudlessBackend.store kOptsW demoSf kFailEnvAltBody =
      KloudlessBackend.store kOptsW demoSf kFailEnv :=
  ⟨rfl,
   (kloudless_success_iff_201 kOptsW demoSf kOkEnv).1 rfl rfl,
   by decide,
   (kloudless_success_iff_201 kOptsW demoSf kFailEnv).2.1 (by decide),
   by decide,
   by decide,
   (kloudless_success_iff_201 kOptsW demoSf kMixedEnv).2.2.1
     (by decide) (by decide),
   (kloudless_success_iff_201 kOptsW demoSf kFailEnv).2.2.2 kFailEnvAltBody rfl⟩

/-- Claim C7: the debug backend's `store` is total: for every upload
(zero-byte included), every options dict, every size formatter and every
filesystem it returns success, leaves the filesystem untouched, and emits
exactly its three diagnostic lines. -/
theorem debugBackend_never_fails (humanSize : Nat → String) (opts : Opt)
    (sf : StoredFile) (fs : FS) :
    DebugBackend.store humanSize opts sf fs =
      (.ok (), fs,
        ["Storing file:", "\tName: " ++ sf.name,
         "\tSize: " ++ humanSize sf.file.size]) := rfl

/-- Claim C10: the debug backend's behaviour is a function of the upload's
name and declared size only — the options dict, the file content and the
info page are never read. -/
theorem debugBackend_reads_only_name_and_size (humanSize : Nat → String)
    (opts1 opts2 : Opt) (sf1 sf2 : StoredFile) (fs : FS)
    (hn : sf1.name = sf2.name) (hs : sf1.file.size = sf2.file.size) :
    DebugBackend.store humanSize opts1 sf1 fs =
      DebugBackend.store humanSize opts2 sf2 fs := by
  simp [DebugBackend.store, hn, hs]

/-- A concrete size formatter for the debug-backend witness. -/
def humanSizeW : Nat → String := fun n => toString n ++ " bytes"

/-- Same name and size as `demoSf`, different content, info page. -/
def altSf : StoredFile := ⟨"abc123", ⟨[[9, 9], [7]], 2⟩, "<other/>"⟩

/-- Claim C10, witness: two uploads agreeing only on name and size, under
two different options dicts, produce identical behaviour. -/
theorem debugBackend_reads_only_name_and_size_witness :
    demoSf.name = altSf.name ∧ demoSf.file.size = altSf.file.size ∧
    DebugBackend.store humanSizeW demoOpts demoSf emptyFS =
      DebugBackend.store humanSizeW s3OptsW altSf emptyFS :=
  ⟨rfl, rfl,
   debugBackend_reads_only_name_and_size humanSizeW demoOpts s3OptsW
     demoSf altSf emptyFS rfl rfl⟩

/-- Claim C8: `get_backend` maps each of the four registered names to an
instance of exactly the corresponding class constructed with the configured
options, and any other name fails deterministically with a `KeyError` for
that name — no fallback. -/
theorem get_backend_registry (conf : StorageConf) :
    (conf.name = "file" → get_backend conf = .ok (.fileB conf.options)) ∧
    (conf.name = "s3cli" → get_backend conf = .ok (.s3cliB conf.options)) ∧
    (conf.name = "kloudless" → get_backend conf = .ok (.kloudlessB conf.options)) ∧
    (conf.name = "debug" → get_backend conf = .ok (.debugB conf.options)) ∧
    (conf.name ∉ (["file", "s3cli", "kloudless", "debug"] : List String) →
      get_backend conf = .error (.keyError conf.name)) := by
  obtain ⟨n, o⟩ := conf
  refine ⟨?_, ?_, ?_, ?_, ?_⟩ <;> intro h
  · subst h; rfl
  · subst h; rfl
  · subst h; rfl
  · subst h; rfl
  · simp only [List.mem_cons, List.not_mem_nil, or_false, not_or] at h
    have e1 : (n == "file") = false := beq_eq_false_iff_ne.mpr h.1
    have e2 : (n == "s3cli") = false := beq_eq_false_iff_ne.mpr h.2.1
    have e3 : (n == "kloudless") = false := beq_eq_false_iff_ne.mpr h.2.2.1
    have e4 : (n == "debug") = false := beq_eq_false_iff_ne.mpr h.2.2.2
    simp [get_backend, backendsDict, List.lookup, e1, e2, e3, e4]

/-- Claim C8, witness: the `file` name yields the local-disk class holding
the given options; the unregistered name `bogus` yields `KeyError`. -/
theorem get_backend_registry_witness :
    get_backend ⟨"file", demoOpts⟩ = .ok (.fileB demoOpts) ∧
    get_backend ⟨"bogus", demoOpts⟩ = .error (.keyError "bogus") :=
  ⟨(get_backend_registry ⟨"file", demoOpts⟩).1 rfl,
   (get_backend_registry ⟨"bogus", demoOpts⟩).2.2.2.2 (by decide)⟩

end Fluffy
